import Mathlib

/-
  Verification of the eCourts scraper (main.py, flask_app.py) against its
  natural-language specification.  The Python code is shallowly embedded:
  the browser automation capability is modelled as a deterministic oracle
  (a structure of pre-determined step outcomes), Python exceptions are
  modelled with Except, Python dictionaries with association lists, and
  the file system visible to the Flask worker with an explicit World value.
  Character classification is modelled over ASCII (Char.isAlphanum), which
  covers every input appearing in the specification.
-/

namespace Ecourts

/-! ### Python string primitives used by the scraper -/

/-- Python str.rstrip(): remove trailing whitespace. -/
def pyRstrip (s : String) : String :=
  String.mk ((s.data.reverse.dropWhile Char.isWhitespace).reverse)

/-- Python str.strip(): remove leading and trailing whitespace. -/
def pyStrip (s : String) : String :=
  String.mk (((s.data.dropWhile Char.isWhitespace).reverse.dropWhile Char.isWhitespace).reverse)

/-- The allow-list of the judge-label sanitizer in
main.py line 194: c.isalnum() or c in (' ', '.'). -/
def allowedChar (c : Char) : Bool :=
  c.isAlphanum || c == ' ' || c == '.'

/-- main.py line 194:
safe_name = "".join(c for c in judge_text if c.isalnum() or c in (' ', '.')).rstrip() -/
def safe_name (judgeText : String) : String :=
  pyRstrip (String.mk (judgeText.data.filter allowedChar))

/-- startsList pre l: pre is a leading run of l (Python str.startswith on char lists). -/
def startsList : List Char → List Char → Bool
  | [], _ => true
  | _ :: _, [] => false
  | a :: as, b :: bs => a == b && startsList as bs

/-- endsList suf l: suf is a trailing run of l (Python str.endswith on char lists). -/
def endsList (suf l : List Char) : Bool :=
  startsList suf.reverse l.reverse

/-- String form of endsList. -/
def endsWithB (suf s : String) : Bool :=
  endsList suf.data s.data

/-- hasSub needle hay: Python substring containment (needle in hay). -/
def hasSub : List Char → List Char → Bool
  | needle, [] => startsList needle []
  | needle, hay =>
    startsList needle hay ||
      match hay with
      | [] => false
      | _ :: t => hasSub needle t

/-- Bool lexicographic comparison of char lists (used only to model
Python sorted(); the theorems below depend only on membership). -/
def lexLe : List Char → List Char → Bool
  | [], _ => true
  | _ :: _, [] => false
  | a :: as, b :: bs => if a == b then lexLe as bs else Nat.ble a.toNat b.toNat

/-- Ordered insert for insertion sort. -/
def insertLe {α : Type} (le : α → α → Bool) (a : α) : List α → List α
  | [] => [a]
  | b :: bs => if le a b then a :: b :: bs else b :: insertLe le a bs

/-- Insertion sort, modelling Python sorted(). -/
def insSort {α : Type} (le : α → α → Bool) : List α → List α
  | [] => []
  | a :: as => insertLe le a (insSort le as)

theorem mem_insertLe {α : Type} (le : α → α → Bool) (a b : α) (l : List α) :
    b ∈ insertLe le a l ↔ b = a ∨ b ∈ l := by
  induction l with
  | nil => simp [insertLe]
  | cons c cs ih =>
    by_cases h : le a c = true
    · simp [insertLe, h]
    · simp only [insertLe, h]
      simp only [Bool.false_eq_true, if_false, List.mem_cons, ih]
      tauto

theorem mem_insSort {α : Type} (le : α → α → Bool) (b : α) (l : List α) :
    b ∈ insSort le l ↔ b ∈ l := by
  induction l with
  | nil => exact Iff.rfl
  | cons a as ih => simp [insSort, mem_insertLe, ih]

/-- Helper: a whitespace character on the sanitizer allow-list is a space. -/
theorem ws_allowed_eq_space (c : Char) (hw : c.isWhitespace = true)
    (ha : allowedChar c = true) : c = ' ' := by
  simp only [Char.isWhitespace, Bool.or_eq_true, decide_eq_true_eq] at hw
  rcases hw with ((h | h) | h) | h
  · exact h
  all_goals (subst h; exact absurd ha (by decide))

/-- Helper: dropWhile is idempotent. -/
theorem dropWhile_dropWhile {α : Type} (p : α → Bool) (l : List α) :
    (l.dropWhile p).dropWhile p = l.dropWhile p := by
  induction l with
  | nil => rfl
  | cons a as ih =>
    by_cases h : p a = true
    · simp [List.dropWhile_cons, h, ih]
    · simp [List.dropWhile_cons, h]

/-! ### Extraction Engine: CNR lookup flow (main.py, find_case_by_cnr) -/

/-- Outcome of a fallible automation step (Playwright raises
TimeoutError or a generic exception). -/
inductive StepErr where
  | timeout
  | siteError (msg : String)
deriving DecidableEq

/-- True when an automation step completed without raising. -/
def isOkB : Except StepErr Unit → Bool
  | Except.ok _ => true
  | Except.error _ => false

@[simp] theorem isOkB_ok (u : Unit) : isOkB (Except.ok u) = true := rfl

@[simp] theorem isOkB_error (e : StepErr) : isOkB (Except.error e) = false := rfl

/-- One result row on the page: raw inner text, td cell texts, and the
href of an a[href ending .pdf] anchor when one is present. -/
structure Row where
  rawText : String
  cells : List String
  pdfHref : Option String
deriving DecidableEq

/-- Deterministic oracle for the browser session seen by find_case_by_cnr:
the pre-determined outcome of every automation step, the rows on the page,
the current epoch second, and which URLs download successfully. -/
structure CnrPage where
  gotoResult : Except StepErr Unit
  waitCnrInput : Except StepErr Unit
  fillResult : Except StepErr Unit
  hasSubmit : Bool
  clickResult : Except StepErr Unit
  waitSettle : Except StepErr Unit
  rows : List Row
  epoch : Nat
  downloadOk : String → Bool

/-- One entry of the CNR lookup result (main.py lines 136-144);
downloaded_pdf is the key added only when the PDF download succeeded. -/
structure CaseItem where
  row_text : String
  serial : String
  court : String
  pdf_link : Option String
  downloaded_pdf : Option String
deriving DecidableEq

/-- Truthiness of the optional href (Python: if should_download and pdf_link). -/
def hrefTruthy : Option String → Bool
  | none => false
  | some h => !(h == "")

/-- The body of the row loop in find_case_by_cnr (main.py lines 122-144):
skip rows whose stripped text is empty or does not contain the CNR; read
cells 0 and 1 defensively; optionally download the linked PDF. -/
def processRow (page : CnrPage) (cnr : String) (should_download : Bool) (r : Row) :
    Option CaseItem :=
  let txt := pyStrip r.rawText
  if txt == "" || !(hasSub cnr.data txt.data) then none
  else
    let serial := match r.cells with | c :: _ => pyStrip c | [] => "N/A"
    let court := match r.cells with | _ :: c :: _ => pyStrip c | _ => "N/A"
    let downloaded :=
      if should_download && hrefTruthy r.pdfHref then
        (if page.downloadOk (r.pdfHref.getD "") then
          some ("outputs/pdfs/" ++ cnr ++ "_" ++ toString page.epoch ++ ".pdf")
        else none)
      else none
    some ⟨txt, serial, court, r.pdfHref, downloaded⟩

/-- main.py lines 103-151.  The whole flow sits in one try/except whose
handlers log and fall through to return results, so every failing step
yields the rows accumulated so far (always [] since all fallible steps
precede the loop).  The date_str parameter mirrors the Python signature. -/
def find_case_by_cnr (page : CnrPage) (cnr : String) (date_str : String)
    (should_download : Bool) : List CaseItem :=
  match page.gotoResult with
  | Except.error _ => []
  | Except.ok _ =>
    match page.waitCnrInput with
    | Except.error _ => []
    | Except.ok _ =>
      match page.fillResult with
      | Except.error _ => []
      | Except.ok _ =>
        match (if page.hasSubmit then page.clickResult else Except.ok ()) with
        | Except.error _ => []
        | Except.ok _ =>
          match page.waitSettle with
          | Except.error _ => []
          | Except.ok _ => page.rows.filterMap (processRow page cnr should_download)

/-! ### Extraction Engine: cause-list flow (main.py, download_causelist_for_complex) -/

/-- One a[href ending .pdf] anchor on the results page. -/
structure JudgeLink where
  text : String
  href : Option String
deriving DecidableEq

/-- One judge entry of the cause-list result (main.py lines 190-199). -/
structure JudgeEntry where
  judge_text : String
  pdf_link : Option String
  downloaded_pdf : Option String
deriving DecidableEq

/-- The cause-list result record (main.py line 155). -/
structure CauseListOut where
  state : String
  district : String
  complexName : String
  date : String
  judges : List JudgeEntry
deriving DecidableEq

/-- Deterministic oracle for the browser session seen by
download_causelist_for_complex. -/
structure ClPage where
  gotoResult : Except StepErr Unit
  waitState : Except StepErr Unit
  settleAfterState : Except StepErr Unit
  waitDistrict : Except StepErr Unit
  settleAfterDistrict : Except StepErr Unit
  waitComplex : Except StepErr Unit
  fillDate : Except StepErr Unit
  clickSubmit : Except StepErr Unit
  settleAfterSubmit : Except StepErr Unit
  judgeLinks : List JudgeLink
  downloadOk : String → Bool

/-- The body of the judge loop (main.py lines 185-199): strip the link
text, fall back to Judge_{idx+1} when empty, and on download success
record the sanitized file name under outputs/pdfs. -/
def judgeEntryOf (page : ClPage) (complexName dateStr : String) (download_pdfs : Bool)
    (idx : Nat) (l : JudgeLink) : JudgeEntry :=
  let jt := pyStrip l.text
  let judge_text := if jt == "" then "Judge_" ++ toString (idx + 1) else jt
  let downloaded :=
    if download_pdfs && hrefTruthy l.href then
      (if page.downloadOk (l.href.getD "") then
        some ("outputs/pdfs/" ++ dateStr ++ "_" ++ complexName ++ "_" ++
          safe_name judge_text ++ ".pdf")
      else none)
    else none
  ⟨judge_text, l.href, downloaded⟩

/-- main.py lines 153-206.  out is initialised with the submitted values
and an empty judges list; every step runs inside one try/except whose
handlers log and fall through to return out, so any failing step yields
the record as built so far.  The district and court-complex steps run
only when the corresponding argument is non-empty (Python truthiness). -/
def download_causelist_for_complex (page : ClPage) (state district complexName dateStr : String)
    (download_pdfs : Bool) : CauseListOut :=
  let out0 : CauseListOut := ⟨state, district, complexName, dateStr, []⟩
  match page.gotoResult with
  | Except.error _ => out0
  | Except.ok _ =>
  match page.waitState with
  | Except.error _ => out0
  | Except.ok _ =>
  match page.settleAfterState with
  | Except.error _ => out0
  | Except.ok _ =>
  match (if district == "" then Except.ok () else page.waitDistrict) with
  | Except.error _ => out0
  | Except.ok _ =>
  match (if district == "" then Except.ok () else page.settleAfterDistrict) with
  | Except.error _ => out0
  | Except.ok _ =>
  match (if complexName == "" then Except.ok () else page.waitComplex) with
  | Except.error _ => out0
  | Except.ok _ =>
  match page.fillDate with
  | Except.error _ => out0
  | Except.ok _ =>
  match page.clickSubmit with
  | Except.error _ => out0
  | Except.ok _ =>
  match page.settleAfterSubmit with
  | Except.error _ => out0
  | Except.ok _ =>
    { out0 with
      judges := page.judgeLinks.enum.map
        (fun p => judgeEntryOf page complexName dateStr download_pdfs p.1 p.2) }

/-- True when some step strictly before judge extraction fails
(the mandatory sequence of the cause-list flow). -/
def clPreExtractionFailed (page : ClPage) (district complexName : String) : Bool :=
  !(isOkB page.gotoResult) || !(isOkB page.waitState) || !(isOkB page.settleAfterState) ||
  (!(district == "") && (!(isOkB page.waitDistrict) || !(isOkB page.settleAfterDistrict))) ||
  (!(complexName == "") && !(isOkB page.waitComplex)) ||
  !(isOkB page.fillDate) || !(isOkB page.clickSubmit) || !(isOkB page.settleAfterSubmit)

/-! ### Job Orchestrator and Result Correlator (flask_app.py) -/

/-- Job status values used by flask_app.py. -/
inductive JobStatus where
  | pending
  | running
  | completed
  | failed
deriving DecidableEq

/-- One JOBS entry: flask_app.py stores a dict with keys status and
command at creation, and later adds output_file/pdfs or error. -/
structure Job where
  status : JobStatus
  command : String
  output_file : Option String
  pdfs : List String
  error : Option String
deriving DecidableEq

/-- The form fields read by run_job (request.form.get returns None when
the field is absent); downloadPdf models the UI checkbox that run_job
deliberately ignores (flask_app.py line 120). -/
structure FormData where
  state : Option String
  district : Option String
  complexField : Option String
  date : Option String
  downloadPdf : Bool
deriving DecidableEq

/-- flask_app.py lines 110-119: the argv list handed to the scraper
subprocess.  Entries are Options because request.form.get may be None. -/
def buildCmd (jobId : String) (f : FormData) : List (Option String) :=
  [some "python", some "main.py", some "--causelist",
   some "--state", f.state,
   some "--district", f.district,
   some "--complex", f.complexField,
   some "--date", f.date,
   some "--output", some ("web_" ++ jobId),
   some "--headless",
   some "--download-pdf"]

/-- Sequence a list of optional strings; none anywhere models the
TypeError that str.join raises on a None element. -/
def seqOpts : List (Option String) → Option (List String)
  | [] => some []
  | none :: _ => none
  | some s :: rest => (seqOpts rest).map (fun r => s :: r)

/-- Python ' '.join. -/
def joinSp : List String → String :=
  String.intercalate " "

/-- The data returned by a successful run_job call: the updated JOBS
store, the allocated identifier, and the argv scheduled on the thread. -/
structure RunJobOk where
  jobs : List (String × Job)
  jobId : String
  scheduledCmd : List String
deriving DecidableEq

/-- flask_app.py lines 104-130 (the /run endpoint).  No validation is
performed on the form fields.  When every field is present the job is
stored as pending with the joined command and the thread is scheduled;
when a field is absent, Python raises TypeError inside the join on
line 123 before JOBS is written, so the request fails with a server
error and no job is created. -/
def run_job (f : FormData) (jobs : List (String × Job)) (jobId : String) :
    Except Unit RunJobOk :=
  match seqOpts (buildCmd jobId f) with
  | none => Except.error ()
  | some c =>
    Except.ok
      ⟨(jobId, ⟨JobStatus.pending, joinSp c, none, [], none⟩) :: jobs, jobId, c⟩

/-- A CauseList submission is incomplete when state, district or complex
is absent or empty (Modelled from the spec and from the truthiness test
in main.py line 227). -/
def isBlankOpt : Option String → Bool
  | none => true
  | some s => s == ""

/-- Incompleteness of a CauseList form submission. -/
def missingCauseList (f : FormData) : Bool :=
  isBlankOpt f.state || isBlankOpt f.district || isBlankOpt f.complexField

/-- The file-system and subprocess outcome visible to one
run_scraper_task run: the subprocess exit code and stderr, the file
names in outputs/, whether outputs/pdfs exists, its (name, mtime)
entries, and the start_time captured at line 23. -/
structure World where
  returncode : Int
  stderr : String
  outputFiles : List String
  pdfDirExists : Bool
  pdfEntries : List (String × Int)
  startTime : Int

/-- Glob web_{jobId}_*.json (flask_app.py line 39). -/
def matchesOutputGlob (jobId f : String) : Bool :=
  let pre := ("web_" ++ jobId ++ "_").data
  startsList pre f.data && endsList (String.data ".json") f.data &&
    Nat.ble (pre.length + 5) f.data.length

/-- flask_app.py lines 44-52: the PDF side of the Result Correlator.  Every
*.pdf in outputs/pdfs whose modification time is at or after
startTime - 1 is claimed for the job, in sorted name order. -/
def collectPdfs (w : World) : List String :=
  if w.pdfDirExists then
    (insSort (fun p q => lexLe p.1.data q.1.data)
        (w.pdfEntries.filter (fun p => endsWithB ".pdf" p.1))).filterMap
      (fun p => if w.startTime - 1 ≤ p.2 then some p.1 else none)
  else []

/-- Update one JOBS entry in place. -/
def updateJob (jobs : List (String × Job)) (jobId : String) (f : Job → Job) :
    List (String × Job) :=
  jobs.map (fun p => if p.1 == jobId then (p.1, f p.2) else p)

/-- Read one JOBS entry. -/
def lookupJob (jobs : List (String × Job)) (jobId : String) : Option Job :=
  (jobs.find? (fun p => p.1 == jobId)).map (fun p => p.2)

/-- flask_app.py lines 18-66 (the background worker), modelled from the
point the subprocess has finished: non-zero exit marks the job failed
with stderr; a missing web_{jobId}_*.json marks it failed with the
FileNotFoundError message; otherwise the job completes with the
lexicographically last result document and the correlated PDFs.  (The
transient running status is overwritten before anything else is read
in this sequential model.) -/
def run_scraper_task (jobId : String) (w : World) (jobs : List (String × Job)) :
    List (String × Job) :=
  if w.returncode == 0 then
    match (insSort (fun a b => lexLe a.data b.data)
        (w.outputFiles.filter (matchesOutputGlob jobId))).getLast? with
    | none =>
      updateJob jobs jobId (fun j =>
        { j with status := JobStatus.failed,
                 error := some "Scraper ran but did not produce an output file." })
    | some last =>
      updateJob jobs jobId (fun j =>
        { j with status := JobStatus.completed,
                 output_file := some last,
                 pdfs := collectPdfs w })
  else
    updateJob jobs jobId (fun j =>
      { j with status := JobStatus.failed, error := some w.stderr })

/-- Reading an entry after updateJob applies the update to that entry. -/
theorem lookupJob_updateJob (jobs : List (String × Job)) (jobId : String) (f : Job → Job) :
    lookupJob (updateJob jobs jobId f) jobId = (lookupJob jobs jobId).map f := by
  induction jobs with
  | nil => rfl
  | cons q rest ih =>
    unfold updateJob lookupJob at ih ⊢
    by_cases h : (q.1 == jobId) = true
    · rw [List.map_cons, if_pos h, List.find?_cons, List.find?_cons]
      have hb : ((q.1, f q.2).1 == jobId) = true := h
      rw [hb]
      rfl
    · have hb : (q.1 == jobId) = false := by
        cases hq : (q.1 == jobId) with
        | true => exact absurd hq h
        | false => rfl
      rw [List.map_cons, if_neg h, List.find?_cons, List.find?_cons, hb]
      exact ih

/-! ### Concrete fixtures used by counterexamples and witnesses -/

/-- The apostrophe character (written by code point). -/
def apostrophe : Char := Char.ofNat 39

/-- The judge label of the sanitization example of the specification. -/
def c5input : String := "Hon" ++ String.singleton apostrophe ++ "ble J. Smith/Court-2"

/-! ### Claim theorems -/

/-- Claim C5, counterexample to the quoted example: sanitizing the label
with apostrophe, slash and hyphen yields "Honble J. SmithCourt2" (the
slash between Smith and Court is dropped without leaving a space), not
the "Honble J. Smith Court2" stated by the specification. -/
theorem C5_counterexample :
    safe_name c5input = "Honble J. SmithCourt2" ∧
    (safe_name c5input = "Honble J. Smith Court2") = False := by
  refine ⟨by decide, ?_⟩
  simp only [eq_iff_iff, iff_false]
  decide

/-- Claim C5 as amended: judge-label sanitization retains exactly the
letters, digits, spaces, and periods of the label in order, drops every
other character (leaving nothing in its place), and trims trailing
whitespace; the example label sanitizes to "Honble J. SmithCourt2".
Stated as: the output is an in-order selection from the input; every
output character is on the allow-list; the allow-listed characters of
the input are the output followed only by trailing spaces; the output
has no trailing whitespace left (rstrip is idempotent on it); and the
concrete example evaluates to the amended value. -/
theorem C5_sanitize_allowlist :
    (∀ s : String, (safe_name s).data.Sublist s.data) ∧
    (∀ s : String, (safe_name s).data.all allowedChar = true) ∧
    (∀ s : String, ∃ k : Nat,
        s.data.filter allowedChar = (safe_name s).data ++ List.replicate k ' ') ∧
    (∀ s : String, pyRstrip (safe_name s) = safe_name s) ∧
    safe_name c5input = "Honble J. SmithCourt2" := by
  have key : ∀ s : String,
      (safe_name s).data =
        ((s.data.filter allowedChar).reverse.dropWhile Char.isWhitespace).reverse :=
    fun s => rfl
  have sub2 : ∀ s : String,
      (safe_name s).data.Sublist (s.data.filter allowedChar) := by
    intro s
    rw [key]
    have h1 : List.Sublist
        ((s.data.filter allowedChar).reverse.dropWhile Char.isWhitespace)
        ((s.data.filter allowedChar).reverse) :=
      (List.dropWhile_suffix _).sublist
    have h2 := h1.reverse
    rwa [List.reverse_reverse] at h2
  refine ⟨?_, ?_, ?_, ?_, ?_⟩
  · intro s
    exact (sub2 s).trans (List.filter_sublist _)
  · intro s
    rw [List.all_eq_true]
    intro c hc
    exact (List.mem_filter.mp ((sub2 s).subset hc)).2
  · intro s
    refine ⟨((s.data.filter allowedChar).reverse.takeWhile Char.isWhitespace).length, ?_⟩
    have hsplit := List.takeWhile_append_dropWhile Char.isWhitespace
      (s.data.filter allowedChar).reverse
    have hws : (s.data.filter allowedChar).reverse.takeWhile Char.isWhitespace =
        List.replicate
          ((s.data.filter allowedChar).reverse.takeWhile Char.isWhitespace).length ' ' := by
      apply List.eq_replicate_of_mem
      intro b hb
      have hwsb : Char.isWhitespace b = true := List.mem_takeWhile_imp hb
      have hin : b ∈ (s.data.filter allowedChar).reverse :=
        ((s.data.filter allowedChar).reverse.takeWhile_sublist _).subset hb
      have hall : allowedChar b = true :=
        (List.mem_filter.mp (List.mem_reverse.mp hin)).2
      exact ws_allowed_eq_space b hwsb hall
    calc s.data.filter allowedChar
        = (s.data.filter allowedChar).reverse.reverse := (List.reverse_reverse _).symm
      _ = ((s.data.filter allowedChar).reverse.takeWhile Char.isWhitespace ++
            (s.data.filter allowedChar).reverse.dropWhile Char.isWhitespace).reverse := by
            rw [hsplit]
      _ = (safe_name s).data ++
            ((s.data.filter allowedChar).reverse.takeWhile Char.isWhitespace).reverse := by
            rw [List.reverse_append, key]
      _ = (safe_name s).data ++ List.replicate
            ((s.data.filter allowedChar).reverse.takeWhile Char.isWhitespace).length ' ' := by
            rw [hws, List.reverse_replicate, List.length_replicate]
  · intro s
    show String.mk (((safe_name s).data.reverse.dropWhile Char.isWhitespace).reverse) = safe_name s
    rw [key, List.reverse_reverse, dropWhile_dropWhile, ← key]
  · decide

/-- Claim C9: the date_str argument of find_case_by_cnr has no influence
on the lookup: for any fixed page state, CNR and download flag, any two
date values produce identical results (the parameter is never read). -/
theorem C9_date_noninterference (page : CnrPage) (cnr d1 d2 : String) (dl : Bool) :
    find_case_by_cnr page cnr d1 dl = find_case_by_cnr page cnr d2 dl := rfl

/-- Claim C8: download_causelist_for_complex is total on the embedding
(every exception is caught at the flow boundary) and always returns a
record carrying exactly the submitted state, district, complex and date,
together with some (possibly empty) judges list. -/
theorem C8_total_with_submitted_fields (page : ClPage) (s d c dt : String) (dl : Bool) :
    ∃ js : List JudgeEntry,
      download_causelist_for_complex page s d c dt dl =
        ⟨s, d, c, dt, js⟩ := by
  unfold download_causelist_for_complex
  repeat' split
  all_goals exact ⟨_, rfl⟩

/-- A run where navigation to the portal fails outright. -/
def pageFail : CnrPage :=
  ⟨Except.error StepErr.timeout, Except.ok (), Except.ok (), false, Except.ok (),
   Except.ok (), [], 0, fun _ => false⟩

/-- A run that completes and genuinely finds no rows. -/
def pageEmpty : CnrPage :=
  ⟨Except.ok (), Except.ok (), Except.ok (), true, Except.ok (),
   Except.ok (), [], 0, fun _ => false⟩

/-- A run that reaches the settle step, times out there, while a
matching result row is present on the page. -/
def pageC6 : CnrPage :=
  ⟨Except.ok (), Except.ok (), Except.ok (), true, Except.ok (),
   Except.error StepErr.timeout,
   [⟨"ABC1234567890 listed", ["1", "Court 5"], none⟩], 0, fun _ => false⟩

/-- Claim C2, counterexample: a run whose navigation fails outright
returns exactly the same value as a completed run that found no rows
(the empty list), so outright failure is not distinguishable from a
valid empty result in the returned value of the flow. -/
theorem C2_counterexample :
    pageFail.gotoResult = Except.error StepErr.timeout ∧
    pageEmpty.gotoResult = Except.ok () ∧ pageEmpty.waitCnrInput = Except.ok () ∧
    pageEmpty.waitSettle = Except.ok () ∧ pageEmpty.rows = [] ∧
    find_case_by_cnr pageEmpty "ABC1234567890" "2025-10-18" false = [] ∧
    find_case_by_cnr pageFail "ABC1234567890" "2025-10-18" false =
      find_case_by_cnr pageEmpty "ABC1234567890" "2025-10-18" false :=
  ⟨rfl, rfl, rfl, rfl, rfl, rfl, rfl⟩

/-- Claim C2 as amended: when navigation or the CNR-input wait fails
outright, the exception is caught at the flow boundary, only logged,
and the lookup returns the empty row list - the same value a completed
run with no matching rows returns. -/
theorem C2_amended_failure_returns_empty (page : CnrPage) (cnr d : String) (dl : Bool)
    (h : isOkB page.gotoResult = false ∨ isOkB page.waitCnrInput = false) :
    find_case_by_cnr page cnr d dl = [] := by
  unfold find_case_by_cnr
  rcases h with h | h <;> (repeat' split) <;> first | rfl | simp_all

/-- Witness for C2_amended_failure_returns_empty at pageFail. -/
theorem C2_amended_witness :
    find_case_by_cnr pageFail "ABC1234567890" "2025-10-18" false = [] :=
  C2_amended_failure_returns_empty pageFail "ABC1234567890" "2025-10-18" false (Or.inl rfl)

/-- Claim C6, counterexample: on a run that reaches the settle step and
times out there while a matching row is present, the flow does not
proceed to row extraction: it returns [], although extracting the rows
present would have produced a matching entry. -/
theorem C6_counterexample :
    pageC6.gotoResult = Except.ok () ∧ pageC6.waitCnrInput = Except.ok () ∧
    pageC6.fillResult = Except.ok () ∧ pageC6.clickResult = Except.ok () ∧
    pageC6.waitSettle = Except.error StepErr.timeout ∧
    pageC6.rows.filterMap (processRow pageC6 "ABC1234567890" false) =
      [⟨"ABC1234567890 listed", "1", "Court 5", none, none⟩] ∧
    find_case_by_cnr pageC6 "ABC1234567890" "2025-10-18" false = [] :=
  ⟨rfl, rfl, rfl, rfl, rfl, by decide, rfl⟩

/-- Claim C6 as amended: a timeout (or any failure) while waiting for
network quiescence is fatal to extraction: the exception propagates to
the flow boundary, row extraction never runs, and the lookup returns
the empty list rather than the rows present on the page. -/
theorem C6_amended_settle_timeout_fatal (page : CnrPage) (cnr d : String) (dl : Bool)
    (h : isOkB page.waitSettle = false) :
    find_case_by_cnr page cnr d dl = [] := by
  unfold find_case_by_cnr
  (repeat' split) <;> first | rfl | simp_all

/-- Witness for C6_amended_settle_timeout_fatal at pageC6. -/
theorem C6_amended_witness :
    find_case_by_cnr pageC6 "ABC1234567890" "2025-10-18" false = [] :=
  C6_amended_settle_timeout_fatal pageC6 "ABC1234567890" "2025-10-18" false rfl

/-- A cause-list run where the mandatory state-selection step fails
while judge PDFs would have been present. -/
def clPageFail : ClPage :=
  ⟨Except.ok (), Except.error StepErr.timeout, Except.ok (), Except.ok (), Except.ok (),
   Except.ok (), Except.ok (), Except.ok (), Except.ok (),
   [⟨"Judge A", some "a.pdf"⟩], fun _ => false⟩

/-- A cause-list run that completes and finds no judge PDFs. -/
def clPageEmptyOk : ClPage :=
  ⟨Except.ok (), Except.ok (), Except.ok (), Except.ok (), Except.ok (),
   Except.ok (), Except.ok (), Except.ok (), Except.ok (), [], fun _ => false⟩

/-- Claim C3, counterexample: when the mandatory state-selection step
fails, the flow still returns the result record (with the submitted
state, district, complex and date), and that value is identical to the
one returned by a fully successful run that found no judge PDFs - the
partially built record is returned, not discarded. -/
theorem C3_counterexample :
    clPageFail.waitState = Except.error StepErr.timeout ∧
    download_causelist_for_complex clPageFail "Delhi" "New Delhi" "Tis Hazari"
        "2025-10-18" false =
      ⟨"Delhi", "New Delhi", "Tis Hazari", "2025-10-18", []⟩ ∧
    download_causelist_for_complex clPageFail "Delhi" "New Delhi" "Tis Hazari"
        "2025-10-18" false =
      download_causelist_for_complex clPageEmptyOk "Delhi" "New Delhi" "Tis Hazari"
        "2025-10-18" false :=
  ⟨rfl, rfl, rfl⟩

/-- Claim C3 as amended: when any mandatory step before judge extraction
fails, the failure is only logged and the flow returns the result record
containing the submitted state, district, complex and date with an empty
judges list - indistinguishable from a successful run with no judge
PDFs. -/
theorem C3_amended_failure_returns_initial_record (page : ClPage)
    (s d c dt : String) (dl : Bool)
    (h : clPreExtractionFailed page d c = true) :
    download_causelist_for_complex page s d c dt dl = ⟨s, d, c, dt, []⟩ := by
  unfold download_causelist_for_complex
  repeat' split
  all_goals try rfl
  exfalso
  unfold clPreExtractionFailed at h
  by_cases hd : (d == "") = true <;> by_cases hc : (c == "") = true <;> simp_all

/-- Witness for C3_amended_failure_returns_initial_record at clPageFail. -/
theorem C3_amended_witness :
    download_causelist_for_complex clPageFail "Delhi" "New Delhi" "Tis Hazari"
        "2025-10-18" false =
      ⟨"Delhi", "New Delhi", "Tis Hazari", "2025-10-18", []⟩ :=
  C3_amended_failure_returns_initial_record clPageFail "Delhi" "New Delhi" "Tis Hazari"
    "2025-10-18" false rfl

/-- A CauseList form whose state field is present but empty. -/
def c1form : FormData :=
  ⟨some "", some "New Delhi", some "Tis Hazari", some "2025-10-18", false⟩

/-- Claim C1, counterexample: a CauseList submission with an empty state
field is missing a mandatory field, yet run_job succeeds and stores a
pending job in the registry - there is no InvalidRequest rejection and
a job entry is created. -/
theorem C1_counterexample :
    missingCauseList c1form = true ∧
    Except.map (fun r => (r.jobId, r.jobs.map (fun p => (p.1, p.2.status))))
        (run_job c1form [] "abc123") =
      Except.ok ("abc123", [("abc123", JobStatus.pending)]) :=
  ⟨rfl, rfl⟩

/-- Claim C1 as amended: run_job performs no validation.  A CauseList
submission whose state, district or complex is present but empty still
creates a job: the job is stored as pending and the scraper run is
scheduled; the incompleteness is only detected downstream by the CLI.
(A field absent from the form altogether makes the request fail with a
server error - a TypeError inside the command join - before the job is
stored, still not an InvalidRequest.) -/
theorem C1_amended_no_validation (f : FormData) (jobs : List (String × Job))
    (jobId : String)
    (hs : f.state.isSome = true) (hd : f.district.isSome = true)
    (hc : f.complexField.isSome = true) (hdt : f.date.isSome = true)
    (hm : missingCauseList f = true) :
    ∃ r : RunJobOk, run_job f jobs jobId = Except.ok r ∧ r.jobId = jobId ∧
      ∃ j : Job, r.jobs = (jobId, j) :: jobs ∧ j.status = JobStatus.pending := by
  rcases f with ⟨os, od, oc, odt, dl⟩
  rcases os with _ | s
  · simp at hs
  rcases od with _ | d
  · simp at hd
  rcases oc with _ | c
  · simp at hc
  rcases odt with _ | dt
  · simp at hdt
  exact ⟨_, rfl, rfl, _, rfl, rfl⟩

/-- Witness for C1_amended_no_validation at c1form. -/
theorem C1_amended_witness :
    ∃ r : RunJobOk, run_job c1form [] "abc123" = Except.ok r ∧ r.jobId = "abc123" ∧
      ∃ j : Job, r.jobs = ("abc123", j) :: [] ∧ j.status = JobStatus.pending :=
  C1_amended_no_validation c1form [] "abc123" rfl rfl rfl rfl rfl

/-- Claim C4: when the engine run exits cleanly but no result document
matching web_{jobId}_*.json exists, the job is marked failed with the
FileNotFoundError message, never completed with an empty result. -/
theorem C4_missing_output_marks_failed (jobId : String) (w : World)
    (jobs : List (String × Job)) (j0 : Job)
    (hret : w.returncode = 0)
    (hfiles : w.outputFiles.filter (matchesOutputGlob jobId) = [])
    (hjob : lookupJob jobs jobId = some j0) :
    lookupJob (run_scraper_task jobId w jobs) jobId =
      some { j0 with status := JobStatus.failed,
                     error := some "Scraper ran but did not produce an output file." } := by
  unfold run_scraper_task
  rw [hfiles]
  simp [hret, insSort, lookupJob_updateJob, hjob]

/-- A job entry as freshly created by run_job. -/
def jobPending : Job := ⟨JobStatus.pending, "", none, [], none⟩

/-- A world where the subprocess succeeded but wrote no output file. -/
def w4 : World := ⟨0, "", [], false, [], 0⟩

/-- Witness for C4_missing_output_marks_failed. -/
theorem C4_witness :
    lookupJob (run_scraper_task "j1" w4 [("j1", jobPending)]) "j1" =
      some { jobPending with status := JobStatus.failed,
                             error := some "Scraper ran but did not produce an output file." } :=
  C4_missing_output_marks_failed "j1" w4 [("j1", jobPending)] jobPending rfl rfl rfl

/-- A registry with two pending jobs. -/
def jobs7 : List (String × Job) := [("j1", jobPending), ("j2", jobPending)]

/-- World of job j1: started at second 100, one shared PDF written at 100. -/
def w71 : World := ⟨0, "", ["web_j1_r.json"], true, [("shared.pdf", 100)], 100⟩

/-- World of job j2: started at second 101, same shared PDF area. -/
def w72 : World := ⟨0, "", ["web_j2_r.json"], true, [("shared.pdf", 100)], 101⟩

/-- Claim C7: the correlator claims a PDF for a job exactly when the PDF
file (a *.pdf entry of the shared area, which must exist) has a
modification time at or after the start time of the job minus one second;
consequently two jobs started within one second of each other can both
list the same PDF, as the two concrete completed runs show. -/
theorem C7_time_window_correlation :
    (∀ (w : World) (n : String),
        n ∈ collectPdfs w ↔
          (w.pdfDirExists = true ∧
            ∃ m : Int, (n, m) ∈ w.pdfEntries ∧ endsWithB ".pdf" n = true ∧
              w.startTime - 1 ≤ m)) ∧
    (w72.startTime - w71.startTime ≤ 1 ∧
      lookupJob (run_scraper_task "j1" w71 jobs7) "j1" =
        some ⟨JobStatus.completed, "", some "web_j1_r.json", ["shared.pdf"], none⟩ ∧
      lookupJob (run_scraper_task "j2" w72 jobs7) "j2" =
        some ⟨JobStatus.completed, "", some "web_j2_r.json", ["shared.pdf"], none⟩) := by
  constructor
  · intro w n
    by_cases hd : w.pdfDirExists = true
    · simp only [collectPdfs, hd, if_true, true_and]
      rw [List.mem_filterMap]
      constructor
      · rintro ⟨⟨na, ma⟩, hmem, hf⟩
        rw [mem_insSort, List.mem_filter] at hmem
        by_cases hge : w.startTime - 1 ≤ ma
        · rw [if_pos hge] at hf
          injection hf with hnm
          subst hnm
          exact ⟨ma, hmem.1, hmem.2, hge⟩
        · rw [if_neg hge] at hf
          cases hf
      · rintro ⟨m, hm, he, hge⟩
        exact ⟨(n, m), by rw [mem_insSort, List.mem_filter]; exact ⟨hm, he⟩,
          by rw [if_pos hge]⟩
    · have hd2 : w.pdfDirExists = false := by
        cases h2 : w.pdfDirExists
        · rfl
        · exact absurd h2 hd
      simp [collectPdfs, hd2]
  · exact ⟨by decide, by decide, by decide⟩

/-- seqOpts preserves membership: an element present in the optional
command list is present in the sequenced command. -/
theorem seqOpts_mem (l : List (Option String)) (c : List String) (x : String)
    (h : seqOpts l = some c) (hx : some x ∈ l) : x ∈ c := by
  induction l generalizing c with
  | nil => simp at hx
  | cons o rest ih =>
    cases o with
    | none => simp [seqOpts] at h
    | some s =>
      cases hrest : seqOpts rest with
      | none =>
        rw [seqOpts, hrest] at h
        cases h
      | some cr =>
        rw [seqOpts, hrest] at h
        injection h with hc
        subst hc
        rcases List.mem_cons.mp hx with hx1 | hx2
        · injection hx1 with hxs
          subst hxs
          exact List.mem_cons_self _ _
        · exact List.mem_cons_of_mem _ (ih cr hrest hx2)

/-- A complete CauseList form submission. -/
def fullForm : FormData :=
  ⟨some "Delhi", some "New Delhi", some "Tis Hazari", some "2025-10-18", false⟩

/-- The argv run_job schedules for fullForm under job id abc123. -/
def c10cmd : List String :=
  ["python", "main.py", "--causelist", "--state", "Delhi", "--district", "New Delhi",
   "--complex", "Tis Hazari", "--date", "2025-10-18", "--output", "web_abc123",
   "--headless", "--download-pdf"]

/-- The run_job result for fullForm under job id abc123. -/
def c10run : RunJobOk :=
  ⟨[("abc123", ⟨JobStatus.pending, joinSp c10cmd, none, [], none⟩)], "abc123", c10cmd⟩

/-- Claim C10: every scheduled scraper command carries the
download-and-headless flags, and the command run_job builds is entirely
independent of the download flag supplied by the form of the caller. -/
theorem C10_forced_flags :
    (∀ (f : FormData) (jobs : List (String × Job)) (jobId : String) (r : RunJobOk),
        run_job f jobs jobId = Except.ok r →
          "--download-pdf" ∈ r.scheduledCmd ∧ "--headless" ∈ r.scheduledCmd) ∧
    (∀ (f : FormData) (jobs : List (String × Job)) (jobId : String) (b : Bool),
        run_job { f with downloadPdf := b } jobs jobId = run_job f jobs jobId) := by
  constructor
  · intro f jobs jobId r hr
    unfold run_job at hr
    cases hseq : seqOpts (buildCmd jobId f) with
    | none =>
      rw [hseq] at hr
      cases hr
    | some c =>
      rw [hseq] at hr
      injection hr with hr2
      subst hr2
      constructor
      · exact seqOpts_mem _ _ _ hseq (by simp [buildCmd])
      · exact seqOpts_mem _ _ _ hseq (by simp [buildCmd])
  · intro f jobs jobId b
    rcases f with ⟨os, od, oc, odt, dl⟩
    rfl

/-- Witness for C10_forced_flags at the complete form. -/
theorem C10_witness :
    "--download-pdf" ∈ c10run.scheduledCmd ∧ "--headless" ∈ c10run.scheduledCmd :=
  C10_forced_flags.1 fullForm [] "abc123" c10run rfl

end Ecourts
